import Mathlib

/-!
Verification of the VarioMS5611 barometric variometer driver
(VarioMS5611.cpp / VarioMS5611.h).

The development is a shallow embedding of the driver:

* Machine integers are modelled as `Int`/`Nat`.  Conversions that store a
  value into a 32-bit location (C `int32_t`/`uint32_t` assignments and
  casts) are made explicit through `wrap32`, the two's-complement
  reinterpretation modulo 2^32.  `int64_t` arithmetic is modelled exactly:
  the source only adds 64-bit products of values that came out of 32-bit
  or 16-bit locations, so those intermediates stay far below 2^63 and
  carry no wraparound of their own.  C integer division (which truncates
  toward zero) is `Int.tdiv`.
* C `double` values are idealised as real numbers; `float` literals
  (44330.0f, 0.1902949f, smoothing factors) are taken at their decimal
  value.  No claim below depends on floating-point rounding, only on the
  identities between these quantities.  The C conversion `double -> int`
  (truncation toward zero) is `realTrunc`.
* The device, the I2C bus and the clock are external: each invocation of
  the acquisition step receives the current time `millis()` and the
  24-bit ADC word a `readRegister24` would assemble, and returns the list
  of conversion-command bytes written to the bus.  Time is sampled once
  per step (the source calls `millis()` several times inside one step;
  the difference is at most the step's own running time).
* `myRunCnt` is a C `unsigned int` and wraps around: the library is an
  Arduino library and its documented targets are the 8-bit AVR boards,
  where `unsigned int` is 16 bits, so the increment is taken modulo
  `UINT_CARD = 2^16` (on a 32-bit target the modulus would be 2^32; only
  the wrap period changes, not the shape of any statement).  The
  millisecond clock (`unsigned long`) is modelled as unbounded `Nat`; no
  claim below depends on a clock rollover.
* The member fields of the C++ class, together with the two function-local
  `static` variables (`nextRead` in triggerReadValues, `lastTime` /
  `lastAltitude` in calcVerticalSpeed), form the state record
  `VarioState`; the source has a single instance, so statics and members
  are the same kind of state.
* The build does not define `VARIO_EXTENDED_INTERFACE`, so the
  reads-per-second bookkeeping compiled out by `#ifdef` is not modelled.
-/

namespace VarioMS5611

/-- Two's-complement reinterpretation of an integer as a signed 32-bit
value: the effect of C storing into an `int32_t` (or casting a wider or
unsigned value down to one).  Always lies in [-2^31, 2^31). -/
def wrap32 (n : Int) : Int := (n + 2147483648) % 4294967296 - 2147483648

/-- Truncation toward zero of a real number, the C `double -> int`
conversion (out-of-range conversions are UB in C; the model is total). -/
noncomputable def realTrunc (x : ℝ) : Int := if 0 ≤ x then ⌊x⌋ else -⌊-x⌋

/-- `vario_value_t` from VarioMS5611.h. -/
inductive VarioValue where
  | NONE
  | DIGITAL_PRESSURE_VALUE
  | DIGITAL_TEMPERATURE_VALUE
  | LAST
  deriving DecidableEq, Repr

/-- `ms5611_osr_t` from VarioMS5611.h. -/
inductive Ms5611Osr where
  | MS5611_ULTRA_HIGH_RES
  | MS5611_HIGH_RES
  | MS5611_STANDARD
  | MS5611_LOW_POWER
  | MS5611_ULTRA_LOW_POWER
  deriving DecidableEq, Repr

/-- The enum value (I2C oversampling code) of each `ms5611_osr_t`
enumerand: 0x08, 0x06, 0x04, 0x02, 0x00. -/
def osrCode : Ms5611Osr → Nat
  | .MS5611_ULTRA_HIGH_RES => 0x08
  | .MS5611_HIGH_RES => 0x06
  | .MS5611_STANDARD => 0x04
  | .MS5611_LOW_POWER => 0x02
  | .MS5611_ULTRA_LOW_POWER => 0x00

/-- `MS5611_CMD_CONV_D1` (start pressure conversion). -/
def MS5611_CMD_CONV_D1 : Nat := 0x40

/-- `MS5611_CMD_CONV_D2` (start temperature conversion). -/
def MS5611_CMD_CONV_D2 : Nat := 0x50

/-- The number of values of the C `unsigned int` holding `myRunCnt`:
2^16 on the 8-bit AVR Arduinos this library documents.  `myRunCnt++`
wraps modulo this constant (unsigned overflow is defined behaviour). -/
def UINT_CARD : Nat := 65536

/-- The state of one `VarioMS5611` instance: every member field of the
class plus the function-local statics (see the file comment). -/
structure VarioState where
  myDoSecondOrderCompensation : Bool
  myWarmUpPhase : Bool
  myRunCnt : Nat
  myPressureSmoothingFactor : ℝ
  myReferenceHeight : ℝ
  myPendingValueType : VarioValue
  myVerticalSpeed : Int
  myVerticalSpeedSmoothingFactor : ℝ
  myCompensationValues : Fin 6 → Nat
  myRawPressureVal_D1 : Nat
  myRawTemperatureVal_D2 : Nat
  myPressureVal : Int
  mySmoothedPressureVal : ℝ
  myTemperatureVal : Int
  myct : Nat
  myuosr : Nat
  myTEMP2 : Int
  myOFF2 : Int
  mySENS2 : Int
  nextRead : Nat
  lastTime : Nat
  lastAltitude : ℝ

/-- `VarioMS5611::calcTemperature` (VarioMS5611.cpp lines 213-234).
Returns the temperature in 1/100 degC and the state after the call (the
call writes the member `myTEMP2`).  `dT` is computed in `uint32_t` and
stored into an `int32_t` (`wrap32`); the first-order product uses an
explicit `(int64_t)` cast in the source and is exact; the second-order
term `(dT * dT) / INT32_MAX` is 32-bit arithmetic in the source, hence
the inner `wrap32`. -/
def calcTemperature (s : VarioState) (aRawTemperature : Nat) : Int × VarioState :=
  let D2 : Int := aRawTemperature
  let dT : Int := wrap32 (D2 - (s.myCompensationValues 4 : Int) * 256)
  let TEMP : Int := wrap32 (2000 + (dT * (s.myCompensationValues 5 : Int)).tdiv 8388608)
  let myTEMP2 : Int :=
    if s.myDoSecondOrderCompensation then
      if TEMP < 2000 then (wrap32 (dT * dT)).tdiv 2147483647 else 0
    else 0
  (wrap32 (TEMP - myTEMP2), { s with myTEMP2 := myTEMP2 })

/-- `VarioMS5611::calcTemperatureCompensatedPressure` (VarioMS5611.cpp
lines 236-268).  Returns the pressure in Pa and the state after the call
(with second-order compensation enabled the call writes the members
`myOFF2` and `mySENS2`).  `OFF`/`SENS` carry explicit `(int64_t)` casts
in the source and are exact; the second-order correction terms
`5*((TEMP-2000)*(TEMP-2000))/2` etc. are `int32_t` arithmetic, hence the
`wrap32`s; the final value passes through `uint32_t result` and the
`int32_t` return type, i.e. one more `wrap32`. -/
def calcTemperatureCompensatedPressure (s : VarioState) (aRawPressure aRawTemperature : Nat) :
    Int × VarioState :=
  let dT : Int := wrap32 ((aRawTemperature : Int) - (s.myCompensationValues 4 : Int) * 256)
  let OFF : Int := (s.myCompensationValues 1 : Int) * 65536 +
    ((s.myCompensationValues 3 : Int) * dT).tdiv 128
  let SENS : Int := (s.myCompensationValues 0 : Int) * 32768 +
    ((s.myCompensationValues 2 : Int) * dT).tdiv 256
  if s.myDoSecondOrderCompensation then
    let TEMP : Int := wrap32 (2000 + (dT * (s.myCompensationValues 5 : Int)).tdiv 8388608)
    let sqLow : Int := wrap32 (wrap32 (TEMP - 2000) * wrap32 (TEMP - 2000))
    let myOFF2a : Int := if TEMP < 2000 then (wrap32 (5 * sqLow)).tdiv 2 else 0
    let mySENS2a : Int := if TEMP < 2000 then (wrap32 (5 * sqLow)).tdiv 4 else 0
    let sqVeryLow : Int := wrap32 (wrap32 (TEMP + 1500) * wrap32 (TEMP + 1500))
    let myOFF2b : Int := if TEMP < -1500 then myOFF2a + wrap32 (7 * sqVeryLow) else myOFF2a
    let mySENS2b : Int :=
      if TEMP < -1500 then mySENS2a + (wrap32 (11 * sqVeryLow)).tdiv 2 else mySENS2a
    (wrap32 ((((aRawPressure : Int) * (SENS - mySENS2b)).tdiv 2097152 - (OFF - myOFF2b)).tdiv 32768),
      { s with myOFF2 := myOFF2b, mySENS2 := mySENS2b })
  else
    (wrap32 ((((aRawPressure : Int) * SENS).tdiv 2097152 - OFF).tdiv 32768), s)

/-- `VarioMS5611::calcAltitude` (VarioMS5611.cpp lines 429-432), the
barometric formula; the second argument defaults to 101325 Pa at every
call site of the source that omits it. -/
noncomputable def calcAltitude (aPressure aSeaLevelPressure : ℝ) : ℝ :=
  44330 * (1 - (aPressure / aSeaLevelPressure) ^ (0.1902949 : ℝ))

/-- `VarioMS5611::calcRelAltitude` (VarioMS5611.cpp lines 424-427):
absolute altitude at the default sea-level pressure minus the stored
reference height. -/
noncomputable def calcRelAltitude (s : VarioState) (aPressure : ℝ) : ℝ :=
  calcAltitude aPressure 101325 - s.myReferenceHeight

/-- `VarioMS5611::calcVerticalSpeed` (VarioMS5611.cpp lines 315-329).
`now` is `millis()`; the statics `lastTime`/`lastAltitude` live in the
state.  `myVerticalSpeed` is an `int` member, so the smoothed value is
truncated on assignment. -/
noncomputable def calcVerticalSpeed (s : VarioState) (now : Nat) : VarioState :=
  let dTms : Nat := now - s.lastTime
  let altitude : ℝ := calcAltitude s.mySmoothedPressureVal 101325 * 100
  let lastAlt : ℝ := if s.myWarmUpPhase then altitude else s.lastAltitude
  let vspeed : ℝ := (altitude - lastAlt) * (1000 / (dTms : ℝ))
  { s with
    myVerticalSpeed :=
      realTrunc (vspeed + s.myVerticalSpeedSmoothingFactor * ((s.myVerticalSpeed : ℝ) - vspeed)),
    lastAltitude := altitude,
    lastTime := now }

/-- `VarioMS5611::calcFilter` (VarioMS5611.cpp lines 286-305): one IIR
low-pass step on the compensated pressure, then the vertical-speed
update. -/
noncomputable def calcFilter (s : VarioState) (now : Nat) : VarioState :=
  calcVerticalSpeed
    { s with
      mySmoothedPressureVal :=
        (s.myPressureVal : ℝ) +
          s.myPressureSmoothingFactor * (s.mySmoothedPressureVal - (s.myPressureVal : ℝ)) }
    now

/-- `VarioMS5611::triggerReadValues` (VarioMS5611.cpp lines 124-198), the
non-blocking acquisition step.  Inputs beyond the request kind: `now` is
`millis()` and `adcValue` the 24-bit word `readRegister24` would return.
Output: the state after the call, the C return value, and the list of
conversion-command bytes written to the bus (empty when the deadline has
not passed).  For a request kind with no case in the source's `switch`
(`LAST`), `valueAddr` is an uninitialized local in C; the model sends 0. -/
noncomputable def triggerReadValues (s : VarioState) (now : Nat) (adcValue : Nat)
    (aRequestType : VarioValue) : VarioState × Bool × List Nat :=
  if now > s.nextRead then
    let s1 := { s with myRunCnt := (s.myRunCnt + 1) % UINT_CARD }
    let s2 :=
      if s1.myRunCnt = 100 then
        { s1 with
          myWarmUpPhase := false,
          myReferenceHeight := calcAltitude s1.mySmoothedPressureVal 101325 }
      else s1
    let s3 :=
      if s2.myPendingValueType = VarioValue.DIGITAL_PRESSURE_VALUE then
        let sa := { s2 with myRawPressureVal_D1 := adcValue }
        let tr := calcTemperature sa sa.myRawTemperatureVal_D2
        let sb := { tr.2 with myTemperatureVal := tr.1 }
        let pr := calcTemperatureCompensatedPressure sb sb.myRawPressureVal_D1
          sb.myRawTemperatureVal_D2
        let sc := { pr.2 with myPressureVal := pr.1 }
        calcFilter sc now
      else if s2.myPendingValueType = VarioValue.DIGITAL_TEMPERATURE_VALUE then
        { s2 with myRawTemperatureVal_D2 := adcValue }
      else s2
    let retVal : Bool := decide (aRequestType = s.myPendingValueType)
    let pending : VarioValue :=
      if aRequestType ≠ VarioValue.NONE then aRequestType
      else if s1.myRunCnt % 2 = 0 then VarioValue.DIGITAL_TEMPERATURE_VALUE
      else VarioValue.DIGITAL_PRESSURE_VALUE
    let valueAddr : Nat :=
      if aRequestType ≠ VarioValue.NONE then
        match aRequestType with
        | VarioValue.DIGITAL_TEMPERATURE_VALUE => MS5611_CMD_CONV_D2 + s.myuosr
        | VarioValue.DIGITAL_PRESSURE_VALUE => MS5611_CMD_CONV_D1 + s.myuosr
        | _ => 0
      else if s1.myRunCnt % 2 = 0 then MS5611_CMD_CONV_D2 + s.myuosr
      else MS5611_CMD_CONV_D1 + s.myuosr
    ({ s3 with myPendingValueType := pending, nextRead := now + s.myct }, retVal, [valueAddr])
  else
    (s, false, [])

/-- One step of repeated `run()`-style acquisition with no explicit kind
requested (`triggerReadValues(NONE)`), fed one `(millis, adc)` input. -/
noncomputable def runCycleNone (s : VarioState) (inp : Nat × Nat) : VarioState :=
  (triggerReadValues s inp.1 inp.2 VarioValue.NONE).1

/-- The conversion kinds requested on the bus over a run of
`triggerReadValues(NONE)` cycles: after each step, the new pending kind
is the kind whose conversion command was just issued. -/
noncomputable def requestTrace : VarioState → List (Nat × Nat) → List VarioValue
  | _, [] => []
  | s, inp :: rest => (runCycleNone s inp).myPendingValueType :: requestTrace (runCycleNone s inp) rest

/-- Every cycle of the run hits the ready branch (`millis() > nextRead`). -/
noncomputable def allReady : VarioState → List (Nat × Nat) → Bool
  | _, [] => true
  | s, inp :: rest => decide (inp.1 > s.nextRead) && allReady (runCycleNone s inp) rest

/-- A run of acquisition steps with arbitrary request kinds; each input is
`(millis, adc, requested kind)`. -/
noncomputable def runSteps : VarioState → List (Nat × Nat × VarioValue) → VarioState
  | s, [] => s
  | s, inp :: rest => runSteps (triggerReadValues s inp.1 inp.2.1 inp.2.2).1 rest

/-- How many steps of the run take the ready branch. -/
noncomputable def readyCount : VarioState → List (Nat × Nat × VarioValue) → Nat
  | _, [] => 0
  | s, inp :: rest =>
      (if inp.1 > s.nextRead then 1 else 0) +
        readyCount (triggerReadValues s inp.1 inp.2.1 inp.2.2).1 rest

/-- How many steps of the run execute the reference-height recomputation
of VarioMS5611.cpp line 135: the ready branch is taken and the
incremented (wrapped) cycle counter equals 100 (lines 128-136). -/
noncomputable def refHeightRecomputeCount : VarioState → List (Nat × Nat × VarioValue) → Nat
  | _, [] => 0
  | s, inp :: rest =>
      (if inp.1 > s.nextRead ∧ (s.myRunCnt + 1) % UINT_CARD = 100 then 1 else 0) +
        refHeightRecomputeCount (triggerReadValues s inp.1 inp.2.1 inp.2.2).1 rest

/-- How many of the first `rc` ready cycles, starting from counter value
`c`, have their incremented wrapped counter equal to 100 - that is, how
many times line 135 runs over `rc` ready cycles (the counter before the
j-th ready cycle is `(c + j) % UINT_CARD`, so the cycle recomputes
exactly when `(c + j + 1) % UINT_CARD = 100`). -/
def crossingCount (c rc : Nat) : Nat :=
  (List.range rc).countP fun j => decide ((c + j + 1) % UINT_CARD = 100)

/-- `VarioMS5611::setOversampling` (VarioMS5611.cpp lines 62-84): the
conversion wait `myct` per oversampling level, and the code itself. -/
def setOversampling (s : VarioState) (osr : Ms5611Osr) : VarioState :=
  let ct : Nat :=
    match osr with
    | .MS5611_ULTRA_LOW_POWER => 1
    | .MS5611_LOW_POWER => 2
    | .MS5611_STANDARD => 3
    | .MS5611_HIGH_RES => 5
    | .MS5611_ULTRA_HIGH_RES => 10
  { s with myct := ct, myuosr := osrCode osr }

/-- The collaborators of one run of `begin`: the clock and ADC word
delivered to the i-th `triggerReadValues` call, and the six PROM words
`readPROM` assembles (each a 16-bit value by construction). -/
structure BusEnv where
  time : Nat → Nat
  adc : Nat → Nat
  prom : Fin 6 → Nat

/-- The busy-wait loop of the blocking reads (VarioMS5611.cpp lines
112-118 and 200-206): call `triggerReadValues` with the wanted kind until
it returns true.  `fuel` bounds the spin (the source has no timeout: a
non-responsive environment makes the loop spin forever, here `none`).
Returns the state and the next call index. -/
noncomputable def triggerLoop (env : BusEnv) (req : VarioValue) :
    Nat → VarioState → Nat → Option (VarioState × Nat)
  | 0, _, _ => none
  | fuel + 1, s, i =>
      let r := triggerReadValues s (env.time i) (env.adc i) req
      if r.2.1 then some (r.1, i + 1) else triggerLoop env req fuel r.1 (i + 1)

/-- `VarioMS5611::readRawTemperature` (blocking, lines 112-118).  The
value it returns is `myRawTemperatureVal_D2` of the resulting state. -/
noncomputable def readRawTemperatureM (env : BusEnv) (fuel : Nat) (s : VarioState) (i : Nat) :
    Option (VarioState × Nat) :=
  triggerLoop env VarioValue.DIGITAL_TEMPERATURE_VALUE fuel s i

/-- `VarioMS5611::readPressure` (blocking, lines 353-389): blocking raw
pressure then raw temperature reads, then the same compensation
arithmetic as `calcTemperatureCompensatedPressure` written out inline in
the source (writing `myOFF2`/`mySENS2` when `aCompensation`). -/
noncomputable def readPressureM (env : BusEnv) (fuel : Nat) (aCompensation : Bool)
    (s : VarioState) (i : Nat) : Option (Int × VarioState × Nat) :=
  match triggerLoop env VarioValue.DIGITAL_PRESSURE_VALUE fuel s i with
  | none => none
  | some (s1, i1) =>
    match triggerLoop env VarioValue.DIGITAL_TEMPERATURE_VALUE fuel s1 i1 with
    | none => none
    | some (s2, i2) =>
      let D1 : Int := s1.myRawPressureVal_D1
      let D2 : Int := s2.myRawTemperatureVal_D2
      let dT : Int := wrap32 (D2 - (s2.myCompensationValues 4 : Int) * 256)
      let OFF : Int := (s2.myCompensationValues 1 : Int) * 65536 +
        ((s2.myCompensationValues 3 : Int) * dT).tdiv 128
      let SENS : Int := (s2.myCompensationValues 0 : Int) * 32768 +
        ((s2.myCompensationValues 2 : Int) * dT).tdiv 256
      if aCompensation then
        let TEMP : Int := wrap32 (2000 + (dT * (s2.myCompensationValues 5 : Int)).tdiv 8388608)
        let sqLow : Int := wrap32 (wrap32 (TEMP - 2000) * wrap32 (TEMP - 2000))
        let myOFF2a : Int := if TEMP < 2000 then (wrap32 (5 * sqLow)).tdiv 2 else 0
        let mySENS2a : Int := if TEMP < 2000 then (wrap32 (5 * sqLow)).tdiv 4 else 0
        let sqVeryLow : Int := wrap32 (wrap32 (TEMP + 1500) * wrap32 (TEMP + 1500))
        let myOFF2b : Int := if TEMP < -1500 then myOFF2a + wrap32 (7 * sqVeryLow) else myOFF2a
        let mySENS2b : Int :=
          if TEMP < -1500 then mySENS2a + (wrap32 (11 * sqVeryLow)).tdiv 2 else mySENS2a
        some (wrap32 (((D1 * (SENS - mySENS2b)).tdiv 2097152 - (OFF - myOFF2b)).tdiv 32768),
          { s2 with myOFF2 := myOFF2b, mySENS2 := mySENS2b }, i2)
      else
        some (wrap32 (((D1 * SENS).tdiv 2097152 - OFF).tdiv 32768), s2, i2)

/-- `VarioMS5611::readTemperature` (blocking, lines 395-415): blocking
raw temperature read, then the same arithmetic as `calcTemperature`
written out inline in the source; returns `TEMP/100` as a double. -/
noncomputable def readTemperatureM (env : BusEnv) (fuel : Nat) (aCompensation : Bool)
    (s : VarioState) (i : Nat) : Option (ℝ × VarioState × Nat) :=
  match triggerLoop env VarioValue.DIGITAL_TEMPERATURE_VALUE fuel s i with
  | none => none
  | some (s1, i1) =>
    let D2 : Int := s1.myRawTemperatureVal_D2
    let dT : Int := wrap32 (D2 - (s1.myCompensationValues 4 : Int) * 256)
    let TEMP : Int := wrap32 (2000 + (dT * (s1.myCompensationValues 5 : Int)).tdiv 8388608)
    let myTEMP2 : Int :=
      if aCompensation then
        if TEMP < 2000 then (wrap32 (dT * dT)).tdiv 2147483647 else 0
      else 0
    some (((wrap32 (TEMP - myTEMP2) : Int) : ℝ) / 100, { s1 with myTEMP2 := myTEMP2 }, i1)

/-- The warm-up burst of `begin` (VarioMS5611.cpp lines 42-44): 50
iterations of `mySmoothedPressureVal = readPressure(true)`. -/
noncomputable def beginWarmupLoop (env : BusEnv) (fuel : Nat) :
    Nat → VarioState → Nat → Option (VarioState × Nat)
  | 0, s, i => some (s, i)
  | n + 1, s, i =>
      match readPressureM env fuel true s i with
      | none => none
      | some (p, s1, i1) =>
          beginWarmupLoop env fuel n { s1 with mySmoothedPressureVal := (p : ℝ) } i1

/-- The body of `VarioMS5611::begin` (VarioMS5611.cpp lines 31-59) up to
its final `return true`: reset and oversampling setup, `readPROM`, the
warm-up burst, the seed reads and the field initialisations.  `none` only
when a blocking loop inside runs out of fuel (the source would spin
forever there). -/
noncomputable def beginBody (env : BusEnv) (fuel : Nat) (s : VarioState) (aSamplingRate : Ms5611Osr) :
    Option VarioState :=
  let s0 := setOversampling s aSamplingRate
  let s1 := { s0 with myCompensationValues := fun i => env.prom i % 65536 }
  let s2 := { s1 with
    myPendingValueType := VarioValue.NONE,
    myPressureSmoothingFactor := (0.9 : ℝ) }
  match beginWarmupLoop env fuel 50 s2 0 with
  | none => none
  | some (s3, i3) =>
    match readRawTemperatureM env fuel s3 i3 with
    | none => none
    | some (s4, i4) =>
      let s5 := { s4 with
        myRawTemperatureVal_D2 := s4.myRawTemperatureVal_D2,
        myVerticalSpeed := 0,
        myVerticalSpeedSmoothingFactor := (0.9 : ℝ) }
      match readTemperatureM env fuel true s5 i4 with
      | none => none
      | some (t, s6, _) =>
        let s7 := { s6 with myTemperatureVal := realTrunc t }
        let s8 := { s7 with myReferenceHeight := calcAltitude s7.mySmoothedPressureVal 101325 }
        some { s8 with
          myDoSecondOrderCompensation := false,
          myRunCnt := 0,
          myWarmUpPhase := true }

/-- `VarioMS5611::begin`: the body above followed by the unconditional
`return true` of line 59 - the only `return` statement of the function. -/
noncomputable def begin (env : BusEnv) (fuel : Nat) (s : VarioState) (aSamplingRate : Ms5611Osr) :
    Option (VarioState × Bool) :=
  (beginBody env fuel s aSamplingRate).map fun st => (st, true)

/-- The datasheet first-order pressure formula exactly as claim C1 states
it, in exact integer arithmetic with every division truncating toward
zero: dT = rawTemperature - calib[4]*256, OFF = calib[1]*65536 +
calib[3]*dT/128, SENS = calib[0]*32768 + calib[2]*dT/256, Pressure =
(rawPressure*SENS/2097152 - OFF)/32768. -/
def firstOrderPressureSpec (calib : Fin 6 → Nat) (rawPressure rawTemperature : Nat) : Int :=
  let dT : Int := (rawTemperature : Int) - (calib 4 : Int) * 256
  let OFF : Int := (calib 1 : Int) * 65536 + ((calib 3 : Int) * dT).tdiv 128
  let SENS : Int := (calib 0 : Int) * 32768 + ((calib 2 : Int) * dT).tdiv 256
  (((rawPressure : Int) * SENS).tdiv 2097152 - OFF).tdiv 32768

/-- Modelled from the spec: `calcTemperature` as the spec prescribes it
("All intermediate arithmetic must use signed 64-bit precision to avoid
overflow on the multiplication terms"), i.e. the same algorithm with the
second-order product `dT * dT` evaluated exactly (no 32-bit wraparound);
the divisor INT32_MAX is kept as the source has it. -/
def calcTemperature64 (calib : Fin 6 → Nat) (doSecondOrder : Bool) (rawTemperature : Nat) : Int :=
  let dT : Int := (rawTemperature : Int) - (calib 4 : Int) * 256
  let TEMP : Int := 2000 + (dT * (calib 5 : Int)).tdiv 8388608
  let TEMP2 : Int := if doSecondOrder ∧ TEMP < 2000 then (dT * dT).tdiv 2147483647 else 0
  TEMP - TEMP2

/-- A concrete state used by witnesses and counterexamples: every numeric
field zero, warm-up on, no pending conversion, the datasheet calibration
vector C1..C6 = [40127, 36924, 23317, 23282, 33464, 28312]. -/
noncomputable def datasheetState : VarioState where
  myDoSecondOrderCompensation := false
  myWarmUpPhase := true
  myRunCnt := 0
  myPressureSmoothingFactor := 0
  myReferenceHeight := 0
  myPendingValueType := VarioValue.NONE
  myVerticalSpeed := 0
  myVerticalSpeedSmoothingFactor := 0
  myCompensationValues := fun i =>
    match i with
    | 0 => 40127
    | 1 => 36924
    | 2 => 23317
    | 3 => 23282
    | 4 => 33464
    | 5 => 28312
  myRawPressureVal_D1 := 0
  myRawTemperatureVal_D2 := 0
  myPressureVal := 0
  mySmoothedPressureVal := 0
  myTemperatureVal := 0
  myct := 1
  myuosr := 0
  myTEMP2 := 0
  myOFF2 := 0
  mySENS2 := 0
  nextRead := 0
  lastTime := 0
  lastAltitude := 0

/-- The calibration vector of the C2 failing input: coefficient index 4
(the datasheet's C5, the reference temperature) is 32768, index 5 (the
datasheet's C6) is 1, the rest zero. -/
def overflowCalib : Fin 6 → Nat := fun i => if i = 4 then 32768 else if i = 5 then 1 else 0

/-- The state of the C2 failing input: second-order compensation enabled,
calibration `overflowCalib`, everything else as in `datasheetState`. -/
noncomputable def overflowState : VarioState :=
  { datasheetState with
    myDoSecondOrderCompensation := true,
    myCompensationValues := overflowCalib }

/-- A state with a non-zero scratch register `myTEMP2` (and second-order
compensation off), used to exhibit the state write of `calcTemperature`. -/
noncomputable def scratchState : VarioState := { datasheetState with myTEMP2 := 1 }

/-- A state like `datasheetState` but with different non-calibration
fields, used to show the compensation results ignore the rest of the
state. -/
noncomputable def scratchState2 : VarioState :=
  { datasheetState with
    myRunCnt := 77,
    myPendingValueType := VarioValue.DIGITAL_PRESSURE_VALUE,
    myVerticalSpeed := -3,
    myRawPressureVal_D1 := 123456,
    myRawTemperatureVal_D2 := 654321,
    myPressureVal := 42,
    myTemperatureVal := -17,
    myct := 10,
    myuosr := 8,
    myTEMP2 := 5,
    myOFF2 := -9,
    mySENS2 := 11,
    nextRead := 999,
    lastTime := 55 }

/-- A freshly initialised state for the counter-wrap run: counter 0,
warm-up flag set, `nextRead = 0` and a zero conversion wait so that
strictly increasing times keep every cycle ready. -/
noncomputable def wrapRunState : VarioState := { datasheetState with myct := 0 }

/-- UINT_CARD + 100 = 65636 acquisition steps at times 1, 2, 3, ...,
each a ready `run()` cycle of `wrapRunState`: enough for the 16-bit
cycle counter to pass 100, wrap around, and pass 100 a second time. -/
def wrapRunInputs : List (Nat × Nat × VarioValue) :=
  (List.range (UINT_CARD + 100)).map fun i => (i + 1, 0, VarioValue.NONE)

/-! ## Helper lemmas -/

/-- Storing an already in-range value into an `int32_t` is the identity. -/
lemma wrap32_eq_self_of_natAbs {a : Int} (h : a.natAbs < 2147483648) : wrap32 a = a := by
  unfold wrap32
  omega

/-- Magnitude bound for C truncating division. -/
lemma natAbs_tdiv_lt {a b : Int} {k : Nat} (h : a.natAbs < b.natAbs * k) :
    (a.tdiv b).natAbs < k := by
  rw [Int.natAbs_tdiv]
  exact Nat.div_lt_of_lt_mul h

/-- Magnitude bound for a product. -/
lemma natAbs_mul_lt {a b : Int} {m n : Nat} (ha : a.natAbs < m) (hb : b.natAbs < n) :
    (a * b).natAbs < m * n := by
  rw [Int.natAbs_mul]
  exact Nat.mul_lt_mul'' ha hb

/-- Magnitude bound for a sum. -/
lemma natAbs_add_lt {a b : Int} {m n : Nat} (ha : a.natAbs < m) (hb : b.natAbs < n) :
    (a + b).natAbs < m + n :=
  lt_of_le_of_lt (Int.natAbs_add_le a b) (Nat.add_lt_add ha hb)

/-- Magnitude bound for a difference. -/
lemma natAbs_sub_lt {a b : Int} {m n : Nat} (ha : a.natAbs < m) (hb : b.natAbs < n) :
    (a - b).natAbs < m + n :=
  lt_of_le_of_lt (Int.natAbs_sub_le a b) (Nat.add_lt_add ha hb)

/-- Weakening of a magnitude bound. -/
lemma natAbs_weaken {a : Int} {m n : Nat} (ha : a.natAbs < m) (h : m ≤ n) : a.natAbs < n :=
  lt_of_lt_of_le ha h

/-- The trailing `wrap32` of the first-order pressure path is the
identity once the calibration words are 16-bit and the raw words 24-bit:
every intermediate stays well inside the signed 32-bit range. -/
lemma firstOrder_wrap32_id (c0 c1 c2 c3 rp dT : Int)
    (h0 : c0.natAbs < 65536) (h1 : c1.natAbs < 65536) (h2 : c2.natAbs < 65536)
    (h3 : c3.natAbs < 65536) (hrp : rp.natAbs < 16777216) (hdT : dT.natAbs < 16777216) :
    wrap32 (((rp * (c0 * 32768 + (c2 * dT).tdiv 256)).tdiv 2097152 -
        (c1 * 65536 + (c3 * dT).tdiv 128)).tdiv 32768) =
      ((rp * (c0 * 32768 + (c2 * dT).tdiv 256)).tdiv 2097152 -
        (c1 * 65536 + (c3 * dT).tdiv 128)).tdiv 32768 := by
  have h2d : (c2 * dT).natAbs < 1099511627776 := natAbs_mul_lt h2 hdT
  have hq2 : ((c2 * dT).tdiv 256).natAbs < 4294967296 := natAbs_tdiv_lt (by simpa using h2d)
  have h3d : (c3 * dT).natAbs < 1099511627776 := natAbs_mul_lt h3 hdT
  have hq3 : ((c3 * dT).tdiv 128).natAbs < 8589934592 := natAbs_tdiv_lt (by simpa using h3d)
  have hSENS : (c0 * 32768 + (c2 * dT).tdiv 256).natAbs < 8589934592 :=
    natAbs_weaken
      (natAbs_add_lt (natAbs_mul_lt h0 (show ((32768 : Int)).natAbs < 32769 by decide)) hq2)
      (by norm_num)
  have hprod : (rp * (c0 * 32768 + (c2 * dT).tdiv 256)).natAbs < 144115188075855872 :=
    natAbs_weaken (natAbs_mul_lt hrp hSENS) (by norm_num)
  have hq1 : ((rp * (c0 * 32768 + (c2 * dT).tdiv 256)).tdiv 2097152).natAbs < 68719476736 :=
    natAbs_tdiv_lt (by simpa using hprod)
  have hOFF : (c1 * 65536 + (c3 * dT).tdiv 128).natAbs < 17179869184 :=
    natAbs_weaken
      (natAbs_add_lt (natAbs_mul_lt h1 (show ((65536 : Int)).natAbs < 65537 by decide)) hq3)
      (by norm_num)
  have hsub : ((rp * (c0 * 32768 + (c2 * dT).tdiv 256)).tdiv 2097152 -
      (c1 * 65536 + (c3 * dT).tdiv 128)).natAbs < 137438953472 :=
    natAbs_weaken (natAbs_sub_lt hq1 hOFF) (by norm_num)
  have hv : (((rp * (c0 * 32768 + (c2 * dT).tdiv 256)).tdiv 2097152 -
      (c1 * 65536 + (c3 * dT).tdiv 128)).tdiv 32768).natAbs < 4194304 :=
    natAbs_tdiv_lt (by simpa using hsub)
  exact wrap32_eq_self_of_natAbs (natAbs_weaken hv (by norm_num))

/-- `calcTemperature` writes only `myTEMP2`: frame lemmas. -/
@[simp] lemma calcTemperature_runCnt (s : VarioState) (r : Nat) :
    (calcTemperature s r).2.myRunCnt = s.myRunCnt := rfl

@[simp] lemma calcTemperature_warmUp (s : VarioState) (r : Nat) :
    (calcTemperature s r).2.myWarmUpPhase = s.myWarmUpPhase := rfl

@[simp] lemma calcTemperature_refHeight (s : VarioState) (r : Nat) :
    (calcTemperature s r).2.myReferenceHeight = s.myReferenceHeight := rfl

@[simp] lemma calcTemperature_rawT (s : VarioState) (r : Nat) :
    (calcTemperature s r).2.myRawTemperatureVal_D2 = s.myRawTemperatureVal_D2 := rfl

@[simp] lemma calcTemperature_rawP (s : VarioState) (r : Nat) :
    (calcTemperature s r).2.myRawPressureVal_D1 = s.myRawPressureVal_D1 := rfl

/-- `calcTemperatureCompensatedPressure` writes only `myOFF2`/`mySENS2`:
frame lemmas. -/
@[simp] lemma calcTCP_runCnt (s : VarioState) (p t : Nat) :
    (calcTemperatureCompensatedPressure s p t).2.myRunCnt = s.myRunCnt := by
  unfold calcTemperatureCompensatedPressure
  split <;> rfl

@[simp] lemma calcTCP_warmUp (s : VarioState) (p t : Nat) :
    (calcTemperatureCompensatedPressure s p t).2.myWarmUpPhase = s.myWarmUpPhase := by
  unfold calcTemperatureCompensatedPressure
  split <;> rfl

@[simp] lemma calcTCP_refHeight (s : VarioState) (p t : Nat) :
    (calcTemperatureCompensatedPressure s p t).2.myReferenceHeight = s.myReferenceHeight := by
  unfold calcTemperatureCompensatedPressure
  split <;> rfl

@[simp] lemma calcTCP_rawT (s : VarioState) (p t : Nat) :
    (calcTemperatureCompensatedPressure s p t).2.myRawTemperatureVal_D2 =
      s.myRawTemperatureVal_D2 := by
  unfold calcTemperatureCompensatedPressure
  split <;> rfl

@[simp] lemma calcTCP_rawP (s : VarioState) (p t : Nat) :
    (calcTemperatureCompensatedPressure s p t).2.myRawPressureVal_D1 =
      s.myRawPressureVal_D1 := by
  unfold calcTemperatureCompensatedPressure
  split <;> rfl

/-- `calcFilter` (with `calcVerticalSpeed` inside) writes only the filter
outputs and the vertical-speed statics: frame lemmas. -/
@[simp] lemma calcFilter_runCnt (s : VarioState) (now : Nat) :
    (calcFilter s now).myRunCnt = s.myRunCnt := rfl

@[simp] lemma calcFilter_warmUp (s : VarioState) (now : Nat) :
    (calcFilter s now).myWarmUpPhase = s.myWarmUpPhase := rfl

@[simp] lemma calcFilter_refHeight (s : VarioState) (now : Nat) :
    (calcFilter s now).myReferenceHeight = s.myReferenceHeight := rfl

@[simp] lemma calcFilter_rawT (s : VarioState) (now : Nat) :
    (calcFilter s now).myRawTemperatureVal_D2 = s.myRawTemperatureVal_D2 := rfl

@[simp] lemma calcFilter_rawP (s : VarioState) (now : Nat) :
    (calcFilter s now).myRawPressureVal_D1 = s.myRawPressureVal_D1 := rfl

@[simp] lemma calcTemperature_myct (s : VarioState) (r : Nat) :
    (calcTemperature s r).2.myct = s.myct := rfl

@[simp] lemma calcTCP_myct (s : VarioState) (p t : Nat) :
    (calcTemperatureCompensatedPressure s p t).2.myct = s.myct := by
  unfold calcTemperatureCompensatedPressure
  split <;> rfl

@[simp] lemma calcFilter_myct (s : VarioState) (now : Nat) :
    (calcFilter s now).myct = s.myct := rfl

/-- The not-ready branch of the acquisition step is a no-op. -/
lemma trigger_not_ready {s : VarioState} {now : Nat} (adc : Nat) (req : VarioValue)
    (h : ¬ now > s.nextRead) : triggerReadValues s now adc req = (s, false, []) := by
  simp only [triggerReadValues, if_neg h]

/-- On a ready step the cycle counter increments by one, wrapping like
the C `unsigned int` it is stored in. -/
lemma trigger_ready_runCnt {s : VarioState} {now : Nat} (adc : Nat) (req : VarioValue)
    (h : now > s.nextRead) :
    (triggerReadValues s now adc req).1.myRunCnt = (s.myRunCnt + 1) % UINT_CARD := by
  simp only [triggerReadValues, if_pos h]
  repeat' split
  all_goals simp_all

/-- The pending kind after a ready step: the requested kind when one is
given, otherwise by parity of the incremented, wrapped cycle counter. -/
lemma trigger_ready_pending {s : VarioState} {now : Nat} (adc : Nat) (req : VarioValue)
    (h : now > s.nextRead) :
    (triggerReadValues s now adc req).1.myPendingValueType =
      if req ≠ VarioValue.NONE then req
      else if ((s.myRunCnt + 1) % UINT_CARD) % 2 = 0 then VarioValue.DIGITAL_TEMPERATURE_VALUE
      else VarioValue.DIGITAL_PRESSURE_VALUE := by
  simp only [triggerReadValues, if_pos h]

/-- On a ready step the next-allowed-read deadline becomes the current
time plus the oversampling wait. -/
lemma trigger_ready_nextRead {s : VarioState} {now : Nat} (adc : Nat) (req : VarioValue)
    (h : now > s.nextRead) :
    (triggerReadValues s now adc req).1.nextRead = now + s.myct := by
  simp only [triggerReadValues, if_pos h]

/-- The acquisition step never changes the oversampling wait. -/
lemma trigger_ready_myct {s : VarioState} {now : Nat} (adc : Nat) (req : VarioValue)
    (h : now > s.nextRead) :
    (triggerReadValues s now adc req).1.myct = s.myct := by
  simp only [triggerReadValues, if_pos h]
  repeat' split
  all_goals simp_all

/-- The reference height after any step: recomputed from the current
smoothed pressure exactly when the step is ready and the incremented
wrapped counter equals 100 (line 131 fires at every such crossing, also
after the counter wraps), untouched otherwise. -/
lemma trigger_refHeight (s : VarioState) (now adc : Nat) (req : VarioValue) :
    (triggerReadValues s now adc req).1.myReferenceHeight =
      if now > s.nextRead ∧ (s.myRunCnt + 1) % UINT_CARD = 100 then
        calcAltitude s.mySmoothedPressureVal 101325
      else s.myReferenceHeight := by
  by_cases h : now > s.nextRead
  · simp only [triggerReadValues, if_pos h, h, true_and]
    dsimp only
    repeat' split
    all_goals simp_all
  · simp only [trigger_not_ready adc req h, h, false_and, if_false]

/-- The warm-up flag after any step: cleared exactly when the step is
ready and the incremented wrapped counter equals 100, untouched
otherwise. -/
lemma trigger_warmUp (s : VarioState) (now adc : Nat) (req : VarioValue) :
    (triggerReadValues s now adc req).1.myWarmUpPhase =
      if now > s.nextRead ∧ (s.myRunCnt + 1) % UINT_CARD = 100 then false
      else s.myWarmUpPhase := by
  by_cases h : now > s.nextRead
  · simp only [triggerReadValues, if_pos h, h, true_and]
    dsimp only
    repeat' split
    all_goals simp_all
  · simp only [trigger_not_ready adc req h, h, false_and, if_false]

/-- Unfolding of `allReady` on a cons cell. -/
lemma allReady_cons {s : VarioState} {inp : Nat × Nat} {rest : List (Nat × Nat)}
    (h : allReady s (inp :: rest) = true) :
    inp.1 > s.nextRead ∧ allReady (runCycleNone s inp) rest = true := by
  simpa [allReady, Bool.and_eq_true, decide_eq_true_iff] using h

/-- Characterisation of the request trace of an all-ready
`triggerReadValues(NONE)` run: the kind requested on cycle k is fixed by
the parity of the incremented cycle counter. -/
lemma requestTrace_char (L : List (Nat × Nat)) : ∀ s : VarioState, allReady s L = true →
    requestTrace s L = (List.range L.length).map
      (fun k => if (s.myRunCnt + k + 1) % 2 = 0 then VarioValue.DIGITAL_TEMPERATURE_VALUE
        else VarioValue.DIGITAL_PRESSURE_VALUE) := by
  induction L with
  | nil => intro s _; rfl
  | cons inp rest ih =>
    intro s h
    obtain ⟨hr, hrest⟩ := allReady_cons h
    have hpend : (runCycleNone s inp).myPendingValueType =
        (if ((s.myRunCnt + 1) % UINT_CARD) % 2 = 0 then VarioValue.DIGITAL_TEMPERATURE_VALUE
          else VarioValue.DIGITAL_PRESSURE_VALUE) := by
      have := trigger_ready_pending inp.2 VarioValue.NONE hr
      simpa [runCycleNone] using this
    have hcnt : (runCycleNone s inp).myRunCnt = (s.myRunCnt + 1) % UINT_CARD := by
      simpa [runCycleNone] using trigger_ready_runCnt inp.2 VarioValue.NONE hr
    rw [requestTrace, ih (runCycleNone s inp) hrest, hpend, hcnt]
    rw [List.length_cons, List.range_succ_eq_map, List.map_cons, List.map_map]
    congr 1
    · exact if_congr (by unfold UINT_CARD; omega) rfl rfl
    · apply List.map_congr_left
      intro k _
      exact if_congr (by unfold UINT_CARD; omega) rfl rfl

/-- Counting the parity-alternating kinds over 2N consecutive cycles:
exactly N of each. -/
lemma parity_count (c N : Nat) :
    ((List.range (2 * N)).map
        (fun k => if (c + k + 1) % 2 = 0 then VarioValue.DIGITAL_TEMPERATURE_VALUE
          else VarioValue.DIGITAL_PRESSURE_VALUE)).count
        VarioValue.DIGITAL_TEMPERATURE_VALUE = N ∧
      ((List.range (2 * N)).map
        (fun k => if (c + k + 1) % 2 = 0 then VarioValue.DIGITAL_TEMPERATURE_VALUE
          else VarioValue.DIGITAL_PRESSURE_VALUE)).count
        VarioValue.DIGITAL_PRESSURE_VALUE = N := by
  induction N with
  | zero => simp
  | succ n ih =>
    obtain ⟨ihT, ihP⟩ := ih
    have h2 : 2 * (n + 1) = 2 * n + 1 + 1 := by omega
    rw [h2, List.range_succ, List.range_succ]
    simp only [List.map_append, List.count_append, List.map_cons, List.map_nil]
    by_cases hpar : (c + 2 * n + 1) % 2 = 0
    · have hpar2 : ¬ ((c + (2 * n + 1) + 1) % 2 = 0) := by omega
      rw [if_pos hpar, if_neg hpar2]
      constructor
      · simp [List.count_cons, ihT]
      · simp [List.count_cons, ihP]
    · have hpar2 : (c + (2 * n + 1) + 1) % 2 = 0 := by omega
      rw [if_neg hpar, if_pos hpar2]
      constructor
      · simp [List.count_cons, ihT]
      · simp [List.count_cons, ihP]

/-- `crossingCount` over no ready cycles. -/
lemma crossingCount_zero (c : Nat) : crossingCount c 0 = 0 := rfl

/-- Peeling the first ready cycle off a crossing count. -/
lemma crossingCount_succ (c n : Nat) :
    crossingCount c (n + 1) =
      (if (c + 1) % UINT_CARD = 100 then 1 else 0) + crossingCount (c + 1) n := by
  unfold crossingCount
  rw [List.range_succ_eq_map, List.countP_cons, List.countP_map]
  have hc : List.countP ((fun j => decide ((c + j + 1) % UINT_CARD = 100)) ∘ Nat.succ)
      (List.range n) =
      List.countP (fun j => decide ((c + 1 + j + 1) % UINT_CARD = 100)) (List.range n) := by
    apply List.countP_congr
    intro a _
    simp only [Function.comp]
    have e : c + (a + 1) + 1 = c + 1 + a + 1 := by omega
    rw [Nat.succ_eq_add_one, e]
  rw [hc]
  simp only [Nat.add_zero, decide_eq_true_eq]
  exact Nat.add_comm _ _

/-- A crossing count only depends on the start counter modulo the
wrap. -/
lemma crossingCount_mod (a n : Nat) : crossingCount (a % UINT_CARD) n = crossingCount a n := by
  unfold crossingCount
  apply List.countP_congr
  intro j _
  have e : (a % UINT_CARD + j + 1) % UINT_CARD = (a + j + 1) % UINT_CARD := by
    unfold UINT_CARD
    omega
  rw [e]

/-- Peeling the last ready cycle off a crossing count. -/
lemma crossingCount_snoc (c n : Nat) :
    crossingCount c (n + 1) =
      crossingCount c n + (if (c + n + 1) % UINT_CARD = 100 then 1 else 0) := by
  unfold crossingCount
  rw [List.range_succ, List.countP_append, List.countP_cons, List.countP_nil]
  simp [decide_eq_true_eq]

/-- Closed form of the crossing count from a fresh counter: no crossing
in the first 99 ready cycles, then one more every UINT_CARD cycles. -/
lemma crossingCount_zero_closed (n : Nat) :
    crossingCount 0 n = if n < 100 then 0 else (n - 100) / UINT_CARD + 1 := by
  induction n with
  | zero => rw [crossingCount_zero, if_pos (by omega)]
  | succ n ih =>
    rw [crossingCount_snoc, ih]
    unfold UINT_CARD
    split_ifs <;> omega

/-- The crossing invariant of a run of acquisition steps: the line-135
recomputation fires exactly on the ready cycles whose incremented
wrapped counter equals 100 - `crossingCount` many times in total; the
warm-up flag is cleared exactly when at least one crossing occurs; the
reference height is untouched when none occurs. -/
lemma runSteps_crossing (L : List (Nat × Nat × VarioValue)) : ∀ s : VarioState,
    refHeightRecomputeCount s L = crossingCount s.myRunCnt (readyCount s L) ∧
      (runSteps s L).myWarmUpPhase =
        (if 0 < crossingCount s.myRunCnt (readyCount s L) then false else s.myWarmUpPhase) ∧
      (0 < crossingCount s.myRunCnt (readyCount s L) ∨
        (runSteps s L).myReferenceHeight = s.myReferenceHeight) := by
  induction L with
  | nil =>
    intro s
    refine ⟨rfl, ?_, Or.inr rfl⟩
    rw [runSteps, readyCount, crossingCount_zero, if_neg (by omega)]
  | cons inp rest ih =>
    intro s
    obtain ⟨now, adc, req⟩ := inp
    by_cases hr : now > s.nextRead
    · obtain ⟨ih1, ih2, ih3⟩ := ih (triggerReadValues s now adc req).1
      have hcnt : (triggerReadValues s now adc req).1.myRunCnt =
          (s.myRunCnt + 1) % UINT_CARD := trigger_ready_runCnt adc req hr
      have hwu : (triggerReadValues s now adc req).1.myWarmUpPhase =
          (if (s.myRunCnt + 1) % UINT_CARD = 100 then false else s.myWarmUpPhase) := by
        rw [trigger_warmUp]
        simp [hr]
      have hrh : (triggerReadValues s now adc req).1.myReferenceHeight =
          (if (s.myRunCnt + 1) % UINT_CARD = 100 then
            calcAltitude s.mySmoothedPressureVal 101325
          else s.myReferenceHeight) := by
        rw [trigger_refHeight]
        simp [hr]
      rw [hcnt, crossingCount_mod] at ih1 ih2 ih3
      simp only [runSteps, readyCount, refHeightRecomputeCount, if_pos hr, hr, true_and,
        if_true]
      have e : 1 + readyCount (triggerReadValues s now adc req).1 rest =
          readyCount (triggerReadValues s now adc req).1 rest + 1 := by omega
      rw [e, crossingCount_succ]
      refine ⟨?_, ?_, ?_⟩
      · rw [ih1]
      · rw [ih2, hwu]
        split_ifs <;> first | rfl | omega
      · rcases ih3 with hcross | hkeep
        · refine Or.inl ?_
          split_ifs <;> omega
        · by_cases h100 : (s.myRunCnt + 1) % UINT_CARD = 100
          · refine Or.inl ?_
            rw [if_pos h100]
            omega
          · simp only [hkeep, hrh, if_neg h100]
            exact Or.inr trivial
    · rw [runSteps, readyCount, refHeightRecomputeCount,
        show (triggerReadValues s now adc req).1 = s from congrArg Prod.fst
          (trigger_not_ready adc req hr),
        if_neg hr, if_neg (by simp [hr])]
      obtain ⟨ih1, ih2, ih3⟩ := ih s
      refine ⟨by simpa using ih1, by simpa using ih2, ?_⟩
      rcases ih3 with hcross | hkeep
      · exact Or.inl (by simpa using hcross)
      · exact Or.inr (by simpa using hkeep)

/-- A strictly-ascending time ramp against a zero conversion wait makes
every acquisition step ready. -/
lemma ready_ramp (n : Nat) : ∀ (base : Nat) (s : VarioState), s.nextRead = base →
    s.myct = 0 →
    readyCount s ((List.range n).map fun i => (base + i + 1, 0, VarioValue.NONE)) = n := by
  induction n with
  | zero => intro base s _ _; rfl
  | succ n ih =>
    intro base s hnr hct
    rw [List.range_succ_eq_map, List.map_cons, List.map_map]
    have hr : base + 0 + 1 > s.nextRead := by omega
    rw [readyCount]
    dsimp only
    rw [if_pos hr]
    have hnr2 : (triggerReadValues s (base + 0 + 1) 0 VarioValue.NONE).1.nextRead =
        base + 0 + 1 := by
      rw [trigger_ready_nextRead 0 VarioValue.NONE hr, hct]
    have hct2 : (triggerReadValues s (base + 0 + 1) 0 VarioValue.NONE).1.myct = 0 := by
      rw [trigger_ready_myct 0 VarioValue.NONE hr, hct]
    have hmap : (List.range n).map ((fun i => (base + i + 1, 0, VarioValue.NONE)) ∘ Nat.succ) =
        (List.range n).map (fun i => (base + 0 + 1 + i + 1, 0, VarioValue.NONE)) := by
      apply List.map_congr_left
      intro a _
      simp only [Function.comp]
      have e : base + (a + 1) + 1 = base + 0 + 1 + a + 1 := by omega
      rw [Nat.succ_eq_add_one, e]
    rw [hmap, ih (base + 0 + 1) _ hnr2 hct2]
    omega

/-! ## Claim theorems -/

/-- C9: for every pressure value and every stored reference height,
`calcRelAltitude(pressure)` equals `calcAltitude(pressure)` at the
default sea-level pressure 101325 Pa minus the stored reference
height. -/
theorem calcRelAltitude_is_calcAltitude_minus_referenceHeight :
    ∀ (s : VarioState) (aPressure : ℝ),
      calcRelAltitude s aPressure = calcAltitude aPressure 101325 - s.myReferenceHeight :=
  fun _ _ => rfl

/-- C2 (the code side of the bug): at calibration `overflowCalib` and
raw temperature 0 - both within the device's range - the second-order
term `(dT * dT) / INT32_MAX` of `calcTemperature` is evaluated in 32-bit
arithmetic: `dT * dT = 2^46` wraps to 0, so the code returns 1999, while
the spec-mandated signed 64-bit evaluation of the same algorithm
(`calcTemperature64`) returns -30769. -/
theorem calcTemperature_secondOrder_wraps32 :
    (calcTemperature overflowState 0).1 = 1999 ∧
      calcTemperature64 overflowCalib true 0 = -30769 ∧
      (calcTemperature overflowState 0).1 ≠ calcTemperature64 overflowCalib true 0 := by
  refine ⟨by decide, by decide, by decide⟩

/-- C1: with second-order compensation disabled, for every 16-bit
calibration vector and every raw pressure/temperature pair in the 24-bit
device range, `calcTemperatureCompensatedPressure` returns exactly the
datasheet first-order formula in exact integer arithmetic with
truncating division. -/
theorem calcTemperatureCompensatedPressure_firstOrder_exact (s : VarioState)
    (rawPressure rawTemperature : Nat)
    (hflag : s.myDoSecondOrderCompensation = false)
    (hcal : ∀ i : Fin 6, s.myCompensationValues i < 65536)
    (hP : rawPressure < 16777216) (hT : rawTemperature < 16777216) :
    (calcTemperatureCompensatedPressure s rawPressure rawTemperature).1 =
      firstOrderPressureSpec s.myCompensationValues rawPressure rawTemperature := by
  have hc4 := hcal 4
  have hdTb : ((rawTemperature : Int) - (s.myCompensationValues 4 : Int) * 256).natAbs <
      16777216 := by omega
  have hdT : wrap32 ((rawTemperature : Int) - (s.myCompensationValues 4 : Int) * 256) =
      (rawTemperature : Int) - (s.myCompensationValues 4 : Int) * 256 :=
    wrap32_eq_self_of_natAbs (natAbs_weaken hdTb (by norm_num))
  have hb : ∀ i : Fin 6, ((s.myCompensationValues i : Int)).natAbs < 65536 := fun i => by
    have := hcal i
    omega
  have hrp : ((rawPressure : Int)).natAbs < 16777216 := by omega
  simp only [calcTemperatureCompensatedPressure, firstOrderPressureSpec, hflag,
    Bool.false_eq_true, if_false, hdT]
  exact firstOrder_wrap32_id _ _ _ _ _ _ (hb 0) (hb 1) (hb 2) (hb 3) hrp hdTb

/-- C1 witness: the datasheet scenario (calibration
[40127, 36924, 23317, 23282, 33464, 28312], raw pressure 9085466, raw
temperature 8569150) satisfies the hypotheses, and the spec formula
there evaluates to 100009. -/
theorem calcTemperatureCompensatedPressure_firstOrder_exact_witness :
    (calcTemperatureCompensatedPressure datasheetState 9085466 8569150).1 =
        firstOrderPressureSpec datasheetState.myCompensationValues 9085466 8569150 ∧
      firstOrderPressureSpec datasheetState.myCompensationValues 9085466 8569150 = 100009 :=
  ⟨calcTemperatureCompensatedPressure_firstOrder_exact datasheetState 9085466 8569150
      (by decide) (by decide) (by decide) (by decide),
    by decide⟩

/-- C3: whenever the first-order temperature
`TEMP = 2000 + dT*calib[5]/8388608` is at least 2000 (20.00 degC),
running the compensation with the second-order flag enabled produces the
same temperature output and the same pressure output as with the flag
disabled. -/
theorem secondOrder_noop_when_warm (s : VarioState) (rawPressure rawTemperature : Nat)
    (hcal : ∀ i : Fin 6, s.myCompensationValues i < 65536)
    (hT : rawTemperature < 16777216)
    (hTEMP : 2000 ≤ 2000 + (((rawTemperature : Int) - (s.myCompensationValues 4 : Int) * 256) *
      (s.myCompensationValues 5 : Int)).tdiv 8388608) :
    (calcTemperature { s with myDoSecondOrderCompensation := true } rawTemperature).1 =
        (calcTemperature { s with myDoSecondOrderCompensation := false } rawTemperature).1 ∧
      (calcTemperatureCompensatedPressure { s with myDoSecondOrderCompensation := true }
          rawPressure rawTemperature).1 =
        (calcTemperatureCompensatedPressure { s with myDoSecondOrderCompensation := false }
          rawPressure rawTemperature).1 := by
  have hc4 := hcal 4
  have hdTb : ((rawTemperature : Int) - (s.myCompensationValues 4 : Int) * 256).natAbs <
      16777216 := by omega
  have hdT : wrap32 ((rawTemperature : Int) - (s.myCompensationValues 4 : Int) * 256) =
      (rawTemperature : Int) - (s.myCompensationValues 4 : Int) * 256 :=
    wrap32_eq_self_of_natAbs (natAbs_weaken hdTb (by norm_num))
  have hb5 : ((s.myCompensationValues 5 : Int)).natAbs < 65536 := by
    have := hcal 5
    omega
  have hq5 : ((((rawTemperature : Int) - (s.myCompensationValues 4 : Int) * 256) *
      (s.myCompensationValues 5 : Int)).tdiv 8388608).natAbs < 131072 :=
    natAbs_tdiv_lt (by simpa using natAbs_mul_lt hdTb hb5)
  have hTEMPeq : wrap32 (2000 + (((rawTemperature : Int) -
      (s.myCompensationValues 4 : Int) * 256) *
      (s.myCompensationValues 5 : Int)).tdiv 8388608) =
      2000 + (((rawTemperature : Int) - (s.myCompensationValues 4 : Int) * 256) *
        (s.myCompensationValues 5 : Int)).tdiv 8388608 :=
    wrap32_eq_self_of_natAbs (natAbs_weaken
      (natAbs_add_lt (show ((2000 : Int)).natAbs < 2001 by decide) hq5) (by norm_num))
  have hnot1 : ¬ (2000 + (((rawTemperature : Int) - (s.myCompensationValues 4 : Int) * 256) *
      (s.myCompensationValues 5 : Int)).tdiv 8388608 < 2000) := by omega
  have hnot2 : ¬ (2000 + (((rawTemperature : Int) - (s.myCompensationValues 4 : Int) * 256) *
      (s.myCompensationValues 5 : Int)).tdiv 8388608 < -1500) := by omega
  constructor
  · simp only [calcTemperature, hdT, hTEMPeq]
    simp only [if_neg hnot1, ite_self]
  · simp only [calcTemperatureCompensatedPressure, hdT, hTEMPeq]
    simp only [if_neg hnot1, if_neg hnot2, if_true, Bool.false_eq_true, if_false, sub_zero]

/-- C3 witness: the datasheet scenario has TEMP = 2007 at raw
temperature 8569150, so both outputs agree between the two flag
settings there. -/
theorem secondOrder_noop_when_warm_witness :
    (calcTemperature { datasheetState with myDoSecondOrderCompensation := true } 8569150).1 =
        (calcTemperature { datasheetState with
          myDoSecondOrderCompensation := false } 8569150).1 ∧
      (calcTemperatureCompensatedPressure { datasheetState with
          myDoSecondOrderCompensation := true } 9085466 8569150).1 =
        (calcTemperatureCompensatedPressure { datasheetState with
          myDoSecondOrderCompensation := false } 9085466 8569150).1 :=
  secondOrder_noop_when_warm datasheetState 9085466 8569150 (by decide) (by decide) (by decide)

/-- C4: over 2N consecutive ready cycles with no explicit kind requested,
the state machine issues exactly N temperature and N pressure conversion
requests, strictly alternating by the parity of the incremented cycle
counter: an even counter requests temperature, an odd one pressure. -/
theorem acquisition_alternates_by_parity (s : VarioState) (L : List (Nat × Nat)) (N : Nat)
    (hready : allReady s L = true) (hlen : L.length = 2 * N) :
    (requestTrace s L).count VarioValue.DIGITAL_TEMPERATURE_VALUE = N ∧
      (requestTrace s L).count VarioValue.DIGITAL_PRESSURE_VALUE = N ∧
      requestTrace s L = (List.range (2 * N)).map
        (fun k => if (s.myRunCnt + k + 1) % 2 = 0 then VarioValue.DIGITAL_TEMPERATURE_VALUE
          else VarioValue.DIGITAL_PRESSURE_VALUE) := by
  have hc := requestTrace_char L s hready
  rw [hlen] at hc
  exact ⟨by rw [hc]; exact (parity_count s.myRunCnt N).1,
    by rw [hc]; exact (parity_count s.myRunCnt N).2, hc⟩

/-- C4 witness: four ready cycles from `datasheetState` (counter 0)
request temperature, pressure, temperature, pressure - two of each. -/
theorem acquisition_alternates_by_parity_witness :
    (requestTrace datasheetState [(1, 0), (3, 0), (5, 0), (7, 0)]).count
        VarioValue.DIGITAL_TEMPERATURE_VALUE = 2 ∧
      (requestTrace datasheetState [(1, 0), (3, 0), (5, 0), (7, 0)]).count
        VarioValue.DIGITAL_PRESSURE_VALUE = 2 ∧
      requestTrace datasheetState [(1, 0), (3, 0), (5, 0), (7, 0)] =
        (List.range (2 * 2)).map
          (fun k => if (datasheetState.myRunCnt + k + 1) % 2 = 0 then
            VarioValue.DIGITAL_TEMPERATURE_VALUE else VarioValue.DIGITAL_PRESSURE_VALUE) :=
  acquisition_alternates_by_parity datasheetState [(1, 0), (3, 0), (5, 0), (7, 0)] 2
    (by decide) (by decide)

/-- C5 counterexample: from a freshly initialised state (counter 0,
warm-up flag set), a concrete run of 65636 ready cycles executes the
line-135 reference-height recomputation twice, not once - the second
time after the 16-bit counter wraps and becomes 100 again - refuting
"never recomputed automatically on any later cycle". -/
theorem refHeight_recomputed_twice_after_counter_wrap :
    refHeightRecomputeCount wrapRunState wrapRunInputs = 2 ∧
      readyCount wrapRunState wrapRunInputs = UINT_CARD + 100 := by
  have hm : wrapRunInputs =
      (List.range (UINT_CARD + 100)).map fun i => (0 + i + 1, 0, VarioValue.NONE) := by
    unfold wrapRunInputs
    apply List.map_congr_left
    intro a _
    simp
  have hready : readyCount wrapRunState wrapRunInputs = UINT_CARD + 100 := by
    rw [hm]
    exact ready_ramp (UINT_CARD + 100) 0 wrapRunState rfl rfl
  refine ⟨?_, hready⟩
  obtain ⟨h1, -, -⟩ := runSteps_crossing wrapRunInputs wrapRunState
  rw [h1, hready, show wrapRunState.myRunCnt = 0 from rfl, crossingCount_zero_closed]
  unfold UINT_CARD
  norm_num

/-- C5 as amended: along any run of acquisition steps from a freshly
initialised state (cycle counter 0, warm-up flag set), the line-135
reference-height recomputation executes exactly on the ready cycles
whose incremented, 16-bit-wrapped counter equals 100 - `crossingCount`
many times in total.  Before 100 ready cycles it never executes and the
reference height is untouched; it has executed exactly once as long as
the run holds fewer than UINT_CARD + 100 ready cycles, i.e. until the
wrapped counter comes back to 100; the warm-up flag is cleared from the
first crossing on.  The last two conjuncts pin the step behaviour: a
step recomputes the reference height from the current smoothed pressure
and clears the warm-up flag precisely when it is ready and its increment
makes the wrapped counter 100, and leaves both untouched otherwise. -/
theorem refHeight_recomputed_at_wrapped_counter_100 :
    ∀ (s : VarioState) (L : List (Nat × Nat × VarioValue)),
      refHeightRecomputeCount { s with myRunCnt := 0 } L =
          crossingCount 0 (readyCount { s with myRunCnt := 0 } L) ∧
        (readyCount { s with myRunCnt := 0 } L < 100 →
          refHeightRecomputeCount { s with myRunCnt := 0 } L = 0 ∧
            (runSteps { s with myRunCnt := 0 } L).myReferenceHeight = s.myReferenceHeight) ∧
        (100 ≤ readyCount { s with myRunCnt := 0 } L →
          readyCount { s with myRunCnt := 0 } L < UINT_CARD + 100 →
          refHeightRecomputeCount { s with myRunCnt := 0 } L = 1) ∧
        ((runSteps { s with myRunCnt := 0, myWarmUpPhase := true } L).myWarmUpPhase =
          (if 100 ≤ readyCount { s with myRunCnt := 0, myWarmUpPhase := true } L then false
            else true)) ∧
        (∀ (t : VarioState) (now adc : Nat) (req : VarioValue),
          (triggerReadValues t now adc req).1.myReferenceHeight =
            (if now > t.nextRead ∧ (t.myRunCnt + 1) % UINT_CARD = 100 then
              calcAltitude t.mySmoothedPressureVal 101325
            else t.myReferenceHeight)) ∧
        (∀ (t : VarioState) (now adc : Nat) (req : VarioValue),
          (triggerReadValues t now adc req).1.myWarmUpPhase =
            (if now > t.nextRead ∧ (t.myRunCnt + 1) % UINT_CARD = 100 then false
              else t.myWarmUpPhase)) := by
  intro s L
  obtain ⟨h1, -, h3⟩ := runSteps_crossing L { s with myRunCnt := 0 }
  obtain ⟨-, h2w, -⟩ := runSteps_crossing L { s with myRunCnt := 0, myWarmUpPhase := true }
  dsimp only at h1 h2w h3
  refine ⟨h1, ?_, ?_, ?_, trigger_refHeight, trigger_warmUp⟩
  · intro hlt
    have hz : crossingCount 0 (readyCount { s with myRunCnt := 0 } L) = 0 := by
      rw [crossingCount_zero_closed, if_pos hlt]
    refine ⟨by rw [h1, hz], ?_⟩
    rcases h3 with hpos | hkeep
    · omega
    · exact hkeep
  · intro hge hlt
    rw [h1, crossingCount_zero_closed, if_neg (by omega)]
    unfold UINT_CARD at hlt ⊢
    omega
  · rw [h2w, crossingCount_zero_closed]
    unfold UINT_CARD
    split_ifs <;> first | rfl | omega

/-- C10: every terminating run of `begin` returns true - initialization
has no failure signal at the public interface, so a caller that loops
retrying `begin` on a false return (as the example sketch does) executes
the loop body zero times. -/
theorem begin_always_returns_true :
    ∀ (env : BusEnv) (fuel : Nat) (s : VarioState) (osr : Ms5611Osr),
      begin env fuel s osr = none ∨ (begin env fuel s osr).map Prod.snd = some true := by
  intro env fuel s osr
  unfold begin
  cases beginBody env fuel s osr <;> simp

/-- C6: the acquisition step returns true exactly when the deadline has
passed and the kind passed as the request argument equals the pending
kind, i.e. the kind of the conversion just completed on this ready cycle
(and on a ready cycle the pending kind's raw sample is indeed overwritten
with the word read from the ADC, which is what makes the blocking reads
terminate with a fresh value of their target kind). -/
theorem trigger_retVal_iff_request_matches_pending :
    ∀ (s : VarioState) (now adc : Nat) (req : VarioValue),
      (triggerReadValues s now adc req).2.1 =
          (decide (now > s.nextRead) && decide (req = s.myPendingValueType)) ∧
        (triggerReadValues s now adc req).1.myRawTemperatureVal_D2 =
          (if now > s.nextRead ∧ s.myPendingValueType = VarioValue.DIGITAL_TEMPERATURE_VALUE
            then adc else s.myRawTemperatureVal_D2) ∧
        (triggerReadValues s now adc req).1.myRawPressureVal_D1 =
          (if now > s.nextRead ∧ s.myPendingValueType = VarioValue.DIGITAL_PRESSURE_VALUE
            then adc else s.myRawPressureVal_D1) := by
  intro s now adc req
  by_cases h : now > s.nextRead
  · refine ⟨?_, ?_, ?_⟩
    · simp [triggerReadValues, if_pos h, h]
    · simp only [triggerReadValues, if_pos h, h, true_and]
      dsimp only
      repeat' split
      all_goals simp_all
    · simp only [triggerReadValues, if_pos h, h, true_and]
      dsimp only
      repeat' split
      all_goals simp_all
  · simp [trigger_not_ready adc req h, h]

/-- C7: invoked before the current time has reached the next-allowed-read
deadline, the acquisition step returns false, leaves every component of
the state unchanged, and writes no command on the bus. -/
theorem trigger_noop_before_deadline (s : VarioState) (now adc : Nat) (req : VarioValue)
    (h : now < s.nextRead) :
    triggerReadValues s now adc req = (s, false, []) :=
  trigger_not_ready adc req (by omega)

/-- C7 witness: at time 3 with deadline 5 the step is a no-op. -/
theorem trigger_noop_before_deadline_witness :
    triggerReadValues { datasheetState with nextRead := 5 } 3 7 VarioValue.NONE =
      ({ datasheetState with nextRead := 5 }, false, []) :=
  trigger_noop_before_deadline { datasheetState with nextRead := 5 } 3 7 VarioValue.NONE
    (by decide)

/-- C8 counterexample: the claim "the state after the call equals the
state before" fails: on a state whose scratch register `myTEMP2` is 1,
`calcTemperature` (second-order compensation off) writes `myTEMP2 := 0`
and the state changes. -/
theorem calcTemperature_mutates_scratch_state :
    (calcTemperature scratchState 0).2 ≠ scratchState :=
  fun h => absurd (congrArg VarioState.myTEMP2 h) (by decide)

/-- C8 as amended: the compensation results are deterministic functions
of the raw inputs, the calibration vector and the second-order flag
alone (no other state component influences them), and each call leaves
every state component unchanged except the scratch registers it writes:
`myTEMP2` for `calcTemperature`, `myOFF2`/`mySENS2` for
`calcTemperatureCompensatedPressure`. -/
theorem compensation_pure_up_to_scratch (s1 s2 : VarioState) (rawPressure rawTemperature : Nat)
    (hcal : ∀ i : Fin 6, s1.myCompensationValues i = s2.myCompensationValues i)
    (hflag : s1.myDoSecondOrderCompensation = s2.myDoSecondOrderCompensation) :
    (calcTemperature s1 rawTemperature).1 = (calcTemperature s2 rawTemperature).1 ∧
      (calcTemperatureCompensatedPressure s1 rawPressure rawTemperature).1 =
        (calcTemperatureCompensatedPressure s2 rawPressure rawTemperature).1 ∧
      (calcTemperature s1 rawTemperature).2 =
        { s1 with myTEMP2 := (calcTemperature s1 rawTemperature).2.myTEMP2 } ∧
      (calcTemperatureCompensatedPressure s1 rawPressure rawTemperature).2 =
        { s1 with
          myOFF2 := (calcTemperatureCompensatedPressure s1 rawPressure rawTemperature).2.myOFF2,
          mySENS2 :=
            (calcTemperatureCompensatedPressure s1 rawPressure rawTemperature).2.mySENS2 } := by
  have hc : s1.myCompensationValues = s2.myCompensationValues := funext hcal
  refine ⟨?_, ?_, ?_, ?_⟩
  · simp only [calcTemperature, hc, hflag]
  · simp only [calcTemperatureCompensatedPressure, hc, hflag]
    split <;> rfl
  · rfl
  · simp only [calcTemperatureCompensatedPressure]
    split <;> rfl

/-- C8 witness: two concrete states agreeing on calibration and flag but
differing elsewhere satisfy the hypotheses. -/
theorem compensation_pure_up_to_scratch_witness :
    (calcTemperature datasheetState 8569150).1 = (calcTemperature scratchState2 8569150).1 ∧
      (calcTemperatureCompensatedPressure datasheetState 9085466 8569150).1 =
        (calcTemperatureCompensatedPressure scratchState2 9085466 8569150).1 ∧
      (calcTemperature datasheetState 8569150).2 =
        { datasheetState with myTEMP2 := (calcTemperature datasheetState 8569150).2.myTEMP2 } ∧
      (calcTemperatureCompensatedPressure datasheetState 9085466 8569150).2 =
        { datasheetState with
          myOFF2 := (calcTemperatureCompensatedPressure datasheetState 9085466 8569150).2.myOFF2,
          mySENS2 :=
            (calcTemperatureCompensatedPressure datasheetState 9085466 8569150).2.mySENS2 } :=
  compensation_pure_up_to_scratch datasheetState scratchState2 9085466 8569150
    (by decide) (by decide)

end VarioMS5611
